import Mathlib

/-!
Verification development for the BrainDock license-state engine
(`src/licensing/license_manager.py`).

The Python code is shallowly embedded: the persisted license record becomes a
Lean structure, `json.dumps(..., sort_keys=True)` over that record becomes an
explicit serializer, `hashlib.sha256(...).hexdigest()[:16]` becomes a full
executable SHA-256 over byte lists, and the stateful `LicenseManager` methods
become pure functions on an explicit machine state.  File I/O is modelled by
an explicit file-content field in the state plus a boolean `ioOk` parameter
for operations that write (an `IOError` on write is the `ioOk = false` case,
which the Python code catches and logs).
-/

/-! ## Bytes, hex, and SHA-256 (model of `hashlib.sha256` / `.hexdigest()`) -/

/-- Lowercase hexadecimal digit for a nibble, as produced by `hexdigest()`. -/
def hexDigitChar (n : Nat) : Char :=
  if n < 10 then Char.ofNat (48 + n) else Char.ofNat (87 + n % 16)

/-- A 32-bit word rendered as exactly 8 lowercase hex characters. -/
def wordToHex8 (w : Nat) : String :=
  String.mk [hexDigitChar (w / 16 ^ 7 % 16), hexDigitChar (w / 16 ^ 6 % 16),
             hexDigitChar (w / 16 ^ 5 % 16), hexDigitChar (w / 16 ^ 4 % 16),
             hexDigitChar (w / 16 ^ 3 % 16), hexDigitChar (w / 16 ^ 2 % 16),
             hexDigitChar (w / 16 % 16), hexDigitChar (w % 16)]

/-- UTF-8 encoding of one Unicode scalar value (model of `str.encode()`). -/
def utf8Char (c : Char) : List Nat :=
  let n := c.toNat
  if n < 0x80 then [n]
  else if n < 0x800 then [0xC0 + n / 64, 0x80 + n % 64]
  else if n < 0x10000 then [0xE0 + n / 4096, 0x80 + n / 64 % 64, 0x80 + n % 64]
  else [0xF0 + n / 262144, 0x80 + n / 4096 % 64, 0x80 + n / 64 % 64, 0x80 + n % 64]

/-- UTF-8 bytes of a string (model of Python `str.encode()`). -/
def utf8Bytes (s : String) : List Nat :=
  s.data.flatMap utf8Char

/-- 32-bit truncation. -/
def m32 (n : Nat) : Nat := n % 2 ^ 32

/-- Right rotation of a 32-bit word. -/
def rotr32 (k x : Nat) : Nat := m32 ((x >>> k) ||| (x <<< (32 - k)))

/-- Bitwise complement of a 32-bit word. -/
def not32 (x : Nat) : Nat := x ^^^ 0xFFFFFFFF

/-- SHA-256 round-constants table (FIPS 180-4 sect. 4.2.2, in decimal). -/
def shaK : List Nat :=
  [1116352408, 1899447441, 3049323471, 3921009573, 961987163,
   1508970993, 2453635748, 2870763221, 3624381080, 310598401,
   607225278, 1426881987, 1925078388, 2162078206, 2614888103,
   3248222580, 3835390401, 4022224774, 264347078, 604807628,
   770255983, 1249150122, 1555081692, 1996064986, 2554220882,
   2821834349, 2952996808, 3210313671, 3336571891, 3584528711,
   113926993, 338241895, 666307205, 773529912, 1294757372,
   1396182291, 1695183700, 1986661051, 2177026350, 2456956037,
   2730485921, 2820302411, 3259730800, 3345764771, 3516065817,
   3600352804, 4094571909, 275423344, 430227734, 506948616,
   659060556, 883997877, 958139571, 1322822218, 1537002063,
   1747873779, 1955562222, 2024104815, 2227730452, 2361852424,
   2428436474, 2756734187, 3204031479, 3329325298]

/-- SHA-256 initial hash value (FIPS 180-4 sect. 5.3.3, in decimal). -/
def shaH0 : List Nat :=
  [1779033703, 3144134277, 1013904242, 2773480762,
   1359893119, 2600822924, 528734635, 1541459225]

/-- Big-endian 8-byte encoding of a natural number. -/
def be64 (n : Nat) : List Nat :=
  [n >>> 56 % 256, n >>> 48 % 256, n >>> 40 % 256, n >>> 32 % 256,
   n >>> 24 % 256, n >>> 16 % 256, n >>> 8 % 256, n % 256]

/-- SHA-256 message padding: `0x80`, zeros to 56 mod 64, then the bit length. -/
def shaPad (msg : List Nat) : List Nat :=
  let l := msg.length
  let zeros := (119 - l % 64) % 64
  msg ++ 0x80 :: List.replicate zeros 0 ++ be64 (8 * l)

/-- Big-endian 32-bit words from a byte list. -/
def bytesToWords : List Nat → List Nat
  | b0 :: b1 :: b2 :: b3 :: rest =>
      (b0 * 2 ^ 24 + b1 * 2 ^ 16 + b2 * 2 ^ 8 + b3) :: bytesToWords rest
  | _ => []

/-- Extend a 16-word block to the 64-word message schedule (`fuel` = 48). -/
def shaExtend : Nat → List Nat → List Nat
  | 0, ws => ws
  | fuel + 1, ws =>
      let i := ws.length
      let s0 := rotr32 7 (ws.getD (i - 15) 0) ^^^ rotr32 18 (ws.getD (i - 15) 0) ^^^
                  (ws.getD (i - 15) 0 >>> 3)
      let s1 := rotr32 17 (ws.getD (i - 2) 0) ^^^ rotr32 19 (ws.getD (i - 2) 0) ^^^
                  (ws.getD (i - 2) 0 >>> 10)
      shaExtend fuel (ws ++ [m32 (ws.getD (i - 16) 0 + s0 + ws.getD (i - 7) 0 + s1)])

/-- One SHA-256 compression round. -/
def shaRound (st : List Nat) (kw : Nat × Nat) : List Nat :=
  match st with
  | [a, b, c, d, e, f, g, h] =>
      let s1 := rotr32 6 e ^^^ rotr32 11 e ^^^ rotr32 25 e
      let ch := (e &&& f) ^^^ (not32 e &&& g)
      let t1 := m32 (h + s1 + ch + kw.1 + kw.2)
      let s0 := rotr32 2 a ^^^ rotr32 13 a ^^^ rotr32 22 a
      let mj := (a &&& b) ^^^ (a &&& c) ^^^ (b &&& c)
      let t2 := m32 (s0 + mj)
      [m32 (t1 + t2), a, b, c, m32 (d + t1), e, f, g]
  | st => st

/-- Process one 64-byte block, updating the running hash state. -/
def shaBlock (st : List Nat) (block : List Nat) : List Nat :=
  let ws := shaExtend 48 (bytesToWords block)
  let final := (shaK.zip ws).foldl shaRound st
  (st.zip final).map fun p => m32 (p.1 + p.2)

/-- Split a padded message into 64-byte blocks (`fuel` = number of blocks). -/
def shaBlocks : Nat → List Nat → List (List Nat)
  | 0, _ => []
  | fuel + 1, bytes => bytes.take 64 :: shaBlocks fuel (bytes.drop 64)

/-- SHA-256 of a byte list, as the list of 8 final 32-bit words. -/
def sha256Words (msg : List Nat) : List Nat :=
  let padded := shaPad msg
  (shaBlocks (padded.length / 64) padded).foldl shaBlock shaH0

/-- `hashlib.sha256(msg).hexdigest()`: 64 lowercase hex characters. -/
def sha256Hex (msg : List Nat) : String :=
  match sha256Words msg with
  | [w0, w1, w2, w3, w4, w5, w6, w7] =>
      wordToHex8 w0 ++ wordToHex8 w1 ++ wordToHex8 w2 ++ wordToHex8 w3 ++
      wordToHex8 w4 ++ wordToHex8 w5 ++ wordToHex8 w6 ++ wordToHex8 w7
  | _ => ""

/-- Python slicing `s[:n]` on a string. -/
def strTake (s : String) (n : Nat) : String := String.mk (s.data.take n)

/-! ## The persisted license record (`_default_data` shape) and its serialization -/

/--
The license record persisted by `LicenseManager`.  Every record the program
writes has exactly these eight fields (`_default_data`, `activate_with_stripe`,
`activate_with_key`, `activate_with_promo` all build this full shape); string
fields hold JSON strings or `null` (modelled by `Option String`).  A `checksum`
of `none` models the field being absent or JSON `null` — `data.get("checksum")`
returns Python `None` in both cases.
-/
structure Record where
  licensed : Bool
  license_type : Option String
  stripe_session_id : Option String
  stripe_payment_intent : Option String
  license_key : Option String
  activated_at : Option String
  email : Option String
  checksum : Option String
deriving DecidableEq, Repr

/-- `_default_data`: the default record for the unlicensed state. -/
def defaultData : Record :=
  { licensed := false, license_type := none, stripe_session_id := none,
    stripe_payment_intent := none, license_key := none, activated_at := none,
    email := none, checksum := none }

/-- Four lowercase hex characters, for `\uXXXX` escapes. -/
def hex4 (n : Nat) : String :=
  String.mk [hexDigitChar (n / 4096 % 16), hexDigitChar (n / 256 % 16),
             hexDigitChar (n / 16 % 16), hexDigitChar (n % 16)]

/--
One character under `json.dumps` default (`ensure_ascii=True`) escaping:
named escapes for quote, backslash and common controls, `\uXXXX` for other
controls and all non-ASCII (surrogate pairs above `0xFFFF`), the character
itself in the printable ASCII range.
-/
def jsonEscapeChar (c : Char) : String :=
  if c = '"' then "\\\""
  else if c = '\\' then "\\\\"
  else if c = '\n' then "\\n"
  else if c = '\r' then "\\r"
  else if c = '\t' then "\\t"
  else if c.toNat = 8 then "\\b"
  else if c.toNat = 12 then "\\f"
  else if 0x20 ≤ c.toNat ∧ c.toNat ≤ 0x7e then String.mk [c]
  else if c.toNat < 0x10000 then "\\u" ++ hex4 c.toNat
  else "\\u" ++ hex4 (0xD800 + (c.toNat - 0x10000) / 1024) ++
       "\\u" ++ hex4 (0xDC00 + (c.toNat - 0x10000) % 1024)

/-- A JSON string literal as `json.dumps` renders it. -/
def jsonStr (s : String) : String :=
  "\"" ++ String.join (s.data.map jsonEscapeChar) ++ "\""

/-- An optional string as a JSON value (`null` for Python `None`). -/
def jsonOptStr : Option String → String
  | none => "null"
  | some s => jsonStr s

/-- A boolean as a JSON value. -/
def jsonBool : Bool → String
  | true => "true"
  | false => "false"

/--
`json.dumps(data_copy, sort_keys=True)` over the record without its
`checksum` field, exactly as `_calculate_checksum` serializes it: keys in
lexicographic order, default separators.
-/
def dumpsSorted (r : Record) : String :=
  "\x7b\"activated_at\": " ++ jsonOptStr r.activated_at ++
  ", \"email\": " ++ jsonOptStr r.email ++
  ", \"license_key\": " ++ jsonOptStr r.license_key ++
  ", \"license_type\": " ++ jsonOptStr r.license_type ++
  ", \"licensed\": " ++ jsonBool r.licensed ++
  ", \"stripe_payment_intent\": " ++ jsonOptStr r.stripe_payment_intent ++
  ", \"stripe_session_id\": " ++ jsonOptStr r.stripe_session_id ++ "\x7d"

/--
`LicenseManager._calculate_checksum`: SHA-256 of the key-sorted serialization
of all fields except `checksum`, truncated to the first 16 hex characters.
-/
def calculateChecksum (r : Record) : String :=
  strTake (sha256Hex (utf8Bytes (dumpsSorted r))) 16

/--
`LicenseManager._verify_checksum`: a falsy stored checksum (absent, `null`,
or the empty string) is accepted; otherwise the stored value must equal the
recomputed one.
-/
def verifyChecksum (r : Record) : Bool :=
  match r.checksum with
  | none => true
  | some c => if c = "" then true else c == calculateChecksum r

/-! ## The persisted license file and `_load_data` -/

/--
Content of the license file as `_load_data` can observe it: missing
(`license_file.exists()` false, or an `IOError` on open — both end at the
default), present but not valid JSON (`json.JSONDecodeError`), or a parsed
license record.
-/
inductive LicenseFile where
  | absent
  | unparsable
  | record (r : Record)
deriving DecidableEq, Repr

/--
`LicenseManager._load_data`: missing or unreadable file gives the default
record; a parsed record is checked with `_verify_checksum` and replaced by
the default on mismatch.
-/
def loadData : LicenseFile → Record
  | .absent => defaultData
  | .unparsable => defaultData
  | .record r => if verifyChecksum r then r else defaultData

/-! ## JSON values and the key-list file (`_load_license_keys`) -/

/-- A parsed JSON value, as `json.load` can return for the key-list file.
Numbers are modelled as integers (the claims never compute with them). -/
inductive Json where
  | null
  | bool (b : Bool)
  | num (n : Int)
  | str (s : String)
  | arr (items : List Json)
  | obj (fields : List (String × Json))

/-- Python exceptions that `_load_license_keys` can raise past its
`except (json.JSONDecodeError, IOError)` clause. -/
inductive PyError where
  | attributeError
  | typeError
deriving DecidableEq, Repr

/-- ASCII whitespace stripped by Python `str.strip()`. -/
def isPySpace (c : Char) : Bool :=
  c = ' ' || c = '\t' || c = '\n' || c = '\r' || c.toNat = 11 || c.toNat = 12

/-- Python `str.strip()` (ASCII whitespace; the program's keys are ASCII). -/
def pyStrip (s : String) : String :=
  String.mk (((s.data.dropWhile isPySpace).reverse.dropWhile isPySpace).reverse)

/-- Python `str.upper()` on the ASCII range the program's keys use. -/
def pyUpper (s : String) : String :=
  String.mk (s.data.map fun c => if 'a' ≤ c && c ≤ 'z' then Char.ofNat (c.toNat - 32) else c)

/-- `key.strip().upper()`: the key normalization used throughout. -/
def normalizeKey (s : String) : String := pyUpper (pyStrip s)

/--
Content of the key-list file as `_load_license_keys` can observe it:
absent (no path configured, file missing, or `IOError` — all leave the cache
empty), not valid JSON (`json.JSONDecodeError`, caught), or a parsed value.
-/
inductive KeysFile where
  | absent
  | unparsable
  | parsed (j : Json)

/-- `data["keys"]` on a parsed JSON object: last binding wins, as in
`json.load`. -/
def objGet (fields : List (String × Json)) (k : String) : Option Json :=
  fields.foldl (fun acc p => if p.1 = k then some p.2 else acc) none

/-- Python `set.add`: insert without duplicating. -/
def setAdd (acc : List String) (s : String) : List String :=
  if acc.contains s then acc else acc ++ [s]

/-- `for key in x` over the value under `"keys"`: lists yield their items,
strings their characters, objects their keys; other values raise `TypeError`. -/
def iterEntries : Json → Except PyError (List Json)
  | .arr items => .ok items
  | .str s => .ok (s.data.map fun c => .str (String.mk [c]))
  | .obj fields => .ok (fields.map fun p => .str p.1)
  | _ => .error .typeError

/--
The `self._license_keys_cache.add(key.strip().upper())` loop.  A non-string
entry raises `AttributeError` at `key.strip()`; entries already added stay in
the cache (the set was assigned before the `try`).  Returns the raised
exception, if any, with the cache contents at that point.
-/
def foldKeys : List String → List Json → Option PyError × List String
  | acc, [] => (none, acc)
  | acc, .str s :: rest => foldKeys (setAdd acc (normalizeKey s)) rest
  | acc, _ :: _ => (some .attributeError, acc)

/--
The body of `_load_license_keys` on a cache miss: a dict with a `"keys"`
entry and a bare list are recognized; a missing/unreadable/undecodable file
and any other parsed shape leave the cache empty.  Returns the exception, if
one escapes, with the final cache contents.
-/
def computeKeys : KeysFile → Option PyError × List String
  | .absent => (none, [])
  | .unparsable => (none, [])
  | .parsed j =>
      match j with
      | .obj fields =>
          match objGet fields "keys" with
          | some v =>
              match iterEntries v with
              | .ok entries => foldKeys [] entries
              | .error e => (some e, [])
          | none => (none, [])
      | .arr items => foldKeys [] items
      | _ => (none, [])

/-! ## The license manager state and its operations -/

/--
The observable state of a `LicenseManager`: the in-memory record `self.data`,
the license file on disk, the key-list file on disk, and the key cache
(`self._license_keys_cache`, `none` for Python `None`).
-/
structure LM where
  data : Record
  file : LicenseFile
  keysFile : KeysFile
  keysCache : Option (List String)

/--
`LicenseManager._load_license_keys`: return the cache when set; otherwise
compute it from the key-list file.  The cache is assigned even when the loop
raises (the assignment precedes the `try`).
-/
def loadLicenseKeys (lm : LM) : Except PyError (List String) × LM :=
  match lm.keysCache with
  | some ks => (.ok ks, lm)
  | none =>
      match computeKeys lm.keysFile with
      | (none, ks) => (.ok ks, { lm with keysCache := some ks })
      | (some e, ks) => (.error e, { lm with keysCache := some ks })

/-- `LicenseManager.validate_license_key`: membership of the normalized key
in the loaded key set. -/
def validateLicenseKey (lm : LM) (key : String) : Except PyError Bool × LM :=
  match loadLicenseKeys lm with
  | (.ok ks, lm') => (.ok (ks.contains (normalizeKey key)), lm')
  | (.error e, lm') => (.error e, lm')

/--
`LicenseManager._save_data`: stamp `self.data["checksum"]` with the
recomputed checksum, then write the record.  `ioOk = false` models an
`IOError` raised by the write, which the method catches and logs — it
reports nothing to its caller in either case, so the model returns only the
state.
-/
def saveData (ioOk : Bool) (lm : LM) : LM :=
  let stamped := { lm.data with checksum := some (calculateChecksum lm.data) }
  { lm with data := stamped, file := if ioOk then .record stamped else lm.file }

/-- `LicenseManager.activate_with_stripe`: unconditionally install a licensed
record and save; returns `True`. -/
def activateWithStripe (ioOk : Bool) (lm : LM) (session_id : String)
    (payment_intent email : Option String) (now : String) : Bool × LM :=
  let lm' := saveData ioOk
    { lm with data :=
      { licensed := true, license_type := some "stripe_payment",
        stripe_session_id := some session_id,
        stripe_payment_intent := payment_intent, license_key := none,
        activated_at := some now, email := email, checksum := none } }
  (true, lm')

/-- `LicenseManager.activate_with_key`: validate, and on success install a
licensed record holding the normalized key and save. -/
def activateWithKey (ioOk : Bool) (lm : LM) (license_key : String)
    (now : String) : Except PyError Bool × LM :=
  match validateLicenseKey lm license_key with
  | (.error e, lm') => (.error e, lm')
  | (.ok false, lm') => (.ok false, lm')
  | (.ok true, lm') =>
      let lm2 := saveData ioOk
        { lm' with data :=
          { licensed := true, license_type := some "license_key",
            stripe_session_id := none, stripe_payment_intent := none,
            license_key := some (normalizeKey license_key),
            activated_at := some now, email := none, checksum := none } }
      (.ok true, lm2)

/-- `LicenseManager.activate_with_promo`: unconditionally install a licensed
record holding the promo code and save; returns `True`. -/
def activateWithPromo (ioOk : Bool) (lm : LM) (session_id promo_code : String)
    (email : Option String) (now : String) : Bool × LM :=
  let lm' := saveData ioOk
    { lm with data :=
      { licensed := true, license_type := some "promo_code",
        stripe_session_id := some session_id, stripe_payment_intent := none,
        license_key := some promo_code, activated_at := some now,
        email := email, checksum := none } }
  (true, lm')

/-- `LicenseManager.revoke_license`: reset `self.data` to the default record
and save. -/
def revokeLicense (ioOk : Bool) (lm : LM) : LM :=
  saveData ioOk { lm with data := defaultData }

/-- `LicenseManager.is_licensed`. -/
def isLicensed (lm : LM) : Bool := lm.data.licensed

/-! ## `get_activation_date` and its timestamp parsing -/

/-- A parsed timestamp, the result of `datetime.fromisoformat`. -/
structure PyDateTime where
  year : Nat
  month : Nat
  day : Nat
  hour : Nat
  minute : Nat
  second : Nat
  microsecond : Nat
deriving DecidableEq, Repr

/-- Decimal digit value of a character, `none` for non-digits. -/
def digitVal (c : Char) : Option Nat :=
  if '0' ≤ c && c ≤ '9' then some (c.toNat - 48) else none

/-- Read a run of decimal digits as a number, failing on any non-digit. -/
def readDigits (cs : List Char) : Option Nat :=
  cs.foldl (fun acc c => do pure ((← acc) * 10 + (← digitVal c))) (some 0)

/-- Parse `HH:MM[:SS[.ffffff]]` (model of the time part accepted by
`datetime.fromisoformat` for the strings this program writes). -/
def parseIsoTime (cs : List Char) : Option (Nat × Nat × Nat × Nat) :=
  match cs with
  | [h1, h2, ':', m1, m2] => do
      let h ← readDigits [h1, h2]; let m ← readDigits [m1, m2]
      if h ≤ 23 && m ≤ 59 then pure (h, m, 0, 0) else none
  | [h1, h2, ':', m1, m2, ':', s1, s2] => do
      let h ← readDigits [h1, h2]; let m ← readDigits [m1, m2]
      let s ← readDigits [s1, s2]
      if h ≤ 23 && m ≤ 59 && s ≤ 59 then pure (h, m, s, 0) else none
  | h1 :: h2 :: ':' :: m1 :: m2 :: ':' :: s1 :: s2 :: '.' :: frac => do
      let h ← readDigits [h1, h2]; let m ← readDigits [m1, m2]
      let s ← readDigits [s1, s2]
      if frac.length = 6 || frac.length = 3 then
        let f ← readDigits frac
        let f := if frac.length = 3 then f * 1000 else f
        if h ≤ 23 && m ≤ 59 && s ≤ 59 then pure (h, m, s, f) else none
      else none
  | _ => none

/--
Model of `datetime.fromisoformat` on `YYYY-MM-DD[{T,space}HH:MM[:SS[.ffffff]]]`
strings — the shapes this program writes (`datetime.now().isoformat()`) —
returning `none` where the library raises `ValueError` (any other shape, or
out-of-range fields).  The development only relies on this being an
exception-free function into `Option`.
-/
def fromIsoformat (s : String) : Option PyDateTime :=
  match s.data with
  | [y1, y2, y3, y4, '-', m1, m2, '-', d1, d2] => do
      let y ← readDigits [y1, y2, y3, y4]
      let mo ← readDigits [m1, m2]; let d ← readDigits [d1, d2]
      if 1 ≤ mo && mo ≤ 12 && 1 ≤ d && d ≤ 31 then
        pure ⟨y, mo, d, 0, 0, 0, 0⟩ else none
  | y1 :: y2 :: y3 :: y4 :: '-' :: m1 :: m2 :: '-' :: d1 :: d2 :: sep :: rest => do
      if sep = 'T' || sep = ' ' then
        let y ← readDigits [y1, y2, y3, y4]
        let mo ← readDigits [m1, m2]; let d ← readDigits [d1, d2]
        let t ← parseIsoTime rest
        if 1 ≤ mo && mo ≤ 12 && 1 ≤ d && d ≤ 31 then
          pure ⟨y, mo, d, t.1, t.2.1, t.2.2.1, t.2.2.2⟩ else none
      else none
  | _ => none

/--
`LicenseManager.get_activation_date`: `None` when `activated_at` is unset
(absent, `null`, or empty — all falsy) and `None` when
`datetime.fromisoformat` raises `ValueError` (the `except` swallows it).
-/
def getActivationDate (lm : LM) : Option PyDateTime :=
  match lm.data.activated_at with
  | none => none
  | some s => if s = "" then none else fromIsoformat s

/-! ## Helper lemmas -/

set_option maxRecDepth 100000

/-- `_save_data`'s stamping step: the record as it is persisted. -/
def stampChecksum (r : Record) : Record :=
  { r with checksum := some (calculateChecksum r) }

/-- The checksum never depends on the `checksum` field itself (it is removed
from the serialized copy). -/
theorem calculateChecksum_set (r : Record) (c : Option String) :
    calculateChecksum { r with checksum := c } = calculateChecksum r := rfl

/-- `saveData` spelled through `stampChecksum`. -/
theorem saveData_eq (ioOk : Bool) (lm : LM) :
    saveData ioOk lm =
      { lm with data := stampChecksum lm.data,
                file := if ioOk then .record (stampChecksum lm.data) else lm.file } := rfl

theorem shaRound_length (st : List Nat) (kw : Nat × Nat) :
    (shaRound st kw).length = st.length := by
  unfold shaRound
  split
  · simp
  · rfl

theorem foldl_shaRound_length (l : List (Nat × Nat)) (st : List Nat) :
    (l.foldl shaRound st).length = st.length := by
  induction l generalizing st with
  | nil => rfl
  | cons hd tl ih => simp [List.foldl, ih, shaRound_length]

theorem shaBlock_length (st block : List Nat) :
    (shaBlock st block).length = st.length := by
  unfold shaBlock
  simp [foldl_shaRound_length]

theorem foldl_shaBlock_length (l : List (List Nat)) (st : List Nat) :
    (l.foldl shaBlock st).length = st.length := by
  induction l generalizing st with
  | nil => rfl
  | cons hd tl ih => simp [List.foldl, ih, shaBlock_length]

theorem sha256Words_length (msg : List Nat) : (sha256Words msg).length = 8 := by
  unfold sha256Words
  rw [foldl_shaBlock_length]
  rfl

theorem sha256Hex_length (msg : List Nat) : (sha256Hex msg).length = 64 := by
  have h := sha256Words_length msg
  unfold sha256Hex
  rcases hw : sha256Words msg with _ | ⟨w0, _ | ⟨w1, _ | ⟨w2, _ | ⟨w3, _ | ⟨w4, _ |
    ⟨w5, _ | ⟨w6, _ | ⟨w7, _ | ⟨w8, tl⟩⟩⟩⟩⟩⟩⟩⟩⟩ <;> rw [hw] at h <;> simp_all <;> rfl

theorem calculateChecksum_length (r : Record) : (calculateChecksum r).length = 16 := by
  have h : (sha256Hex (utf8Bytes (dumpsSorted r))).data.length = 64 := sha256Hex_length _
  unfold calculateChecksum strTake
  show (String.mk _).data.length = 16
  simp [h]

theorem calculateChecksum_ne_empty (r : Record) : calculateChecksum r ≠ "" := by
  intro h
  have := calculateChecksum_length r
  rw [h] at this
  exact absurd this (by decide)

/-- A change to a single persisted field other than `checksum` (the edits
quantified over by the tamper-detection property). -/
inductive Tamper where
  | setLicensed (b : Bool)
  | setLicenseType (v : Option String)
  | setSessionId (v : Option String)
  | setPaymentIntent (v : Option String)
  | setLicenseKey (v : Option String)
  | setActivatedAt (v : Option String)
  | setEmail (v : Option String)
deriving DecidableEq, Repr

/-- Apply a single-field edit to a record. -/
def applyTamper : Tamper → Record → Record
  | .setLicensed b, r => { r with licensed := b }
  | .setLicenseType v, r => { r with license_type := v }
  | .setSessionId v, r => { r with stripe_session_id := v }
  | .setPaymentIntent v, r => { r with stripe_payment_intent := v }
  | .setLicenseKey v, r => { r with license_key := v }
  | .setActivatedAt v, r => { r with activated_at := v }
  | .setEmail v, r => { r with email := v }

theorem applyTamper_checksum (t : Tamper) (r : Record) :
    (applyTamper t r).checksum = r.checksum := by
  cases t <;> rfl

theorem verifyChecksum_stamp (r : Record) : verifyChecksum (stampChecksum r) = true := by
  show (if calculateChecksum r = "" then true
        else calculateChecksum r == calculateChecksum (stampChecksum r)) = true
  rw [if_neg (calculateChecksum_ne_empty r)]
  exact beq_self_eq_true (calculateChecksum r)

/-! ## The claims -/

/--
C1: a persisted record carrying a non-empty checksum that differs from the
checksum recomputed over the other fields is discarded by `_load_data` in
favour of the default unlicensed record; consequently, editing any single
non-checksum field of a record produced by `_save_data` yields the default
record on the next load, unless the edit leaves the truncated SHA-256 of the
re-serialized fields unchanged (a 64-bit hash collision — the only escape,
since the stamped checksum is never empty).
-/
theorem checksum_mismatch_rejected :
    (∀ (r : Record) (c : String), r.checksum = some c → c ≠ "" →
        c ≠ calculateChecksum r → loadData (.record r) = defaultData) ∧
    (∀ (d : Record) (t : Tamper),
        loadData (.record (applyTamper t (stampChecksum d))) = defaultData ∨
        calculateChecksum (applyTamper t (stampChecksum d)) = calculateChecksum d) := by
  have key : ∀ (r : Record) (c : String), r.checksum = some c → c ≠ "" →
      c ≠ calculateChecksum r → loadData (.record r) = defaultData := by
    intro r c hc hne hneq
    have hv : verifyChecksum r = false := by
      unfold verifyChecksum
      rw [hc]
      show (if c = "" then true else c == calculateChecksum r) = false
      rw [if_neg hne]
      simpa using hneq
    simp [loadData, hv]
  refine ⟨key, ?_⟩
  intro d t
  by_cases h : calculateChecksum (applyTamper t (stampChecksum d)) = calculateChecksum d
  · exact Or.inr h
  · refine Or.inl (key _ (calculateChecksum d) ?_ (calculateChecksum_ne_empty d) ?_)
    · rw [applyTamper_checksum]; rfl
    · exact fun hh => h hh.symm

/-- A concrete record whose stored checksum cannot be the recomputed one. -/
def rTampered : Record :=
  { licensed := true, license_type := some "license_key",
    stripe_session_id := none, stripe_payment_intent := none,
    license_key := some "BD-AAAA", activated_at := some "2024-01-01T00:00:00",
    email := none, checksum := some "deadbeef" }

/--
Witness for C1: a licensed record with a wrong stored checksum loads as the
default record, and flipping `licensed` on a concretely saved default record
is detected (the second conjunct is checked by full in-kernel SHA-256
evaluation).
-/
theorem checksum_mismatch_rejected_witness :
    loadData (.record rTampered) = defaultData ∧
    (loadData (.record (applyTamper (.setLicensed true) (stampChecksum defaultData))) = defaultData ∨
      calculateChecksum (applyTamper (.setLicensed true) (stampChecksum defaultData)) =
        calculateChecksum defaultData) ∧
    loadData (.record (applyTamper (.setLicensed true) (stampChecksum defaultData))) = defaultData :=
  ⟨checksum_mismatch_rejected.1 rTampered "deadbeef" rfl (by decide)
      (fun h => absurd (calculateChecksum_length rTampered) (by rw [← h]; decide)),
   checksum_mismatch_rejected.2 defaultData (.setLicensed true),
   by decide⟩

/--
C4: a persisted record with no checksum field is accepted and returned by
`_load_data` exactly as stored — `_verify_checksum` treats the absent
checksum as the trusted legacy format — even when `licensed = true`.
-/
theorem legacy_record_accepted (r : Record) (h : r.checksum = none) :
    verifyChecksum r = true ∧ loadData (.record r) = r := by
  have hv : verifyChecksum r = true := by
    unfold verifyChecksum
    rw [h]
  exact ⟨hv, by simp [loadData, hv]⟩

/-- Witness for C4: a licensed record without a checksum field loads as-is. -/
theorem legacy_record_accepted_witness :
    verifyChecksum { defaultData with licensed := true } = true ∧
    loadData (.record { defaultData with licensed := true }) =
      { defaultData with licensed := true } :=
  legacy_record_accepted { defaultData with licensed := true } rfl

/--
C10: `_verify_checksum` trusts every falsy stored checksum, not only an
absent one: a present-but-empty checksum string (and a JSON `null`, which
`data.get("checksum")` also returns as `None`) passes verification, so
`_load_data` accepts such a record as-is even when `licensed = true` —
overwriting the checksum with the empty string bypasses tamper detection.
-/
theorem falsy_checksum_trusted (r : Record)
    (h : r.checksum = some "" ∨ r.checksum = none) :
    verifyChecksum r = true ∧ loadData (.record r) = r := by
  have hv : verifyChecksum r = true := by
    unfold verifyChecksum
    rcases h with h | h <;> rw [h] <;> rfl
  exact ⟨hv, by simp [loadData, hv]⟩

/-- Witness for C10: a licensed record whose checksum was overwritten with
the empty string loads as-is. -/
theorem falsy_checksum_trusted_witness :
    verifyChecksum { defaultData with licensed := true, checksum := some "" } = true ∧
    loadData (.record { defaultData with licensed := true, checksum := some "" }) =
      { defaultData with licensed := true, checksum := some "" } :=
  falsy_checksum_trusted _ (Or.inl rfl)

/--
The claim's hypothesis on round-trip records: `licensed = true` and the
fields required by the record's activation method populated (the unused
identifier fields null), following the record invariants of the spec.
-/
def validRecord (r : Record) : Bool :=
  r.licensed &&
  match r.license_type with
  | some "stripe_payment" =>
      r.stripe_session_id.isSome && r.activated_at.isSome && r.license_key.isNone
  | some "license_key" =>
      r.license_key.isSome && r.activated_at.isSome &&
      r.stripe_session_id.isNone && r.stripe_payment_intent.isNone
  | some "promo_code" =>
      r.stripe_session_id.isSome && r.license_key.isSome &&
      r.activated_at.isSome && r.stripe_payment_intent.isNone
  | _ => false

/--
C3: saving a valid licensed record and loading it back returns the record
with the correct checksum attached: `_save_data` stamps
`checksum = _calculate_checksum(R)`, the recomputed checksum on load matches
the stamped one (the checksum ignores the `checksum` field itself), and the
record is accepted unchanged.
-/
theorem save_load_round_trip (lm : LM) (_hval : validRecord lm.data = true) :
    loadData (saveData true lm).file = stampChecksum lm.data ∧
    verifyChecksum (stampChecksum lm.data) = true ∧
    calculateChecksum (stampChecksum lm.data) = calculateChecksum lm.data ∧
    (stampChecksum lm.data).checksum = some (calculateChecksum lm.data) ∧
    (stampChecksum lm.data).licensed = lm.data.licensed ∧
    (stampChecksum lm.data).license_type = lm.data.license_type ∧
    (stampChecksum lm.data).stripe_session_id = lm.data.stripe_session_id ∧
    (stampChecksum lm.data).stripe_payment_intent = lm.data.stripe_payment_intent ∧
    (stampChecksum lm.data).license_key = lm.data.license_key ∧
    (stampChecksum lm.data).activated_at = lm.data.activated_at ∧
    (stampChecksum lm.data).email = lm.data.email := by
  refine ⟨?_, verifyChecksum_stamp lm.data, rfl, rfl, rfl, rfl, rfl, rfl, rfl, rfl, rfl⟩
  show (if verifyChecksum (stampChecksum lm.data) then stampChecksum lm.data
        else defaultData) = stampChecksum lm.data
  rw [verifyChecksum_stamp]
  rfl

/-- A manager holding a fully populated key-activated licensed record. -/
def lmLicensedKey : LM :=
  { data := { licensed := true, license_type := some "license_key",
              stripe_session_id := none, stripe_payment_intent := none,
              license_key := some "BD-AAAA-BBBB-CCCC-DDDD",
              activated_at := some "2024-01-02T03:04:05", email := none,
              checksum := none },
    file := .absent, keysFile := .absent, keysCache := none }

/-- Witness for C3 at a concrete key-activated record. -/
theorem save_load_round_trip_witness :
    loadData (saveData true lmLicensedKey).file = stampChecksum lmLicensedKey.data ∧
    verifyChecksum (stampChecksum lmLicensedKey.data) = true ∧
    calculateChecksum (stampChecksum lmLicensedKey.data) = calculateChecksum lmLicensedKey.data ∧
    (stampChecksum lmLicensedKey.data).checksum = some (calculateChecksum lmLicensedKey.data) ∧
    (stampChecksum lmLicensedKey.data).licensed = lmLicensedKey.data.licensed ∧
    (stampChecksum lmLicensedKey.data).license_type = lmLicensedKey.data.license_type ∧
    (stampChecksum lmLicensedKey.data).stripe_session_id = lmLicensedKey.data.stripe_session_id ∧
    (stampChecksum lmLicensedKey.data).stripe_payment_intent = lmLicensedKey.data.stripe_payment_intent ∧
    (stampChecksum lmLicensedKey.data).license_key = lmLicensedKey.data.license_key ∧
    (stampChecksum lmLicensedKey.data).activated_at = lmLicensedKey.data.activated_at ∧
    (stampChecksum lmLicensedKey.data).email = lmLicensedKey.data.email :=
  save_load_round_trip lmLicensedKey (by decide)

/-- The unlicensed manager over fresh paths. -/
def lmFresh : LM :=
  { data := defaultData, file := .absent, keysFile := .absent, keysCache := none }

/--
C2 counterexample: when the write raises `IOError` (`ioOk = false`),
`activate_with_stripe` still returns `True` and nothing reaches the disk
(the file stays absent while the in-memory record is licensed), so neither
`_save_data` nor the activation's return value reports the persistence
failure to the caller — `_save_data` only logs, and the activation result
reflects nothing about persistence.
-/
theorem save_failure_counterexample :
    (activateWithStripe false lmFresh "cs_test_123" none none "2024-01-01T00:00:00").1 = true ∧
    (activateWithStripe false lmFresh "cs_test_123" none none "2024-01-01T00:00:00").2.file = .absent ∧
    (activateWithStripe false lmFresh "cs_test_123" none none "2024-01-01T00:00:00").2.data.licensed = true ∧
    (activateWithStripe true lmFresh "cs_test_123" none none "2024-01-01T00:00:00").1 =
      (activateWithStripe false lmFresh "cs_test_123" none none "2024-01-01T00:00:00").1 :=
  ⟨rfl, rfl, rfl, rfl⟩

/--
C2 amended: an I/O error on save is caught and logged inside `_save_data`,
which reports nothing to its caller; the in-memory record remains changed
(and checksum-stamped) regardless, and the activation operations return
`True` independently of whether persistence succeeded — the file is updated
exactly when the write succeeds.
-/
theorem save_failure_swallowed (ioOk : Bool) (lm : LM) (sid : String)
    (pi em : Option String) (now : String) :
    (activateWithStripe ioOk lm sid pi em now).1 = true ∧
    (activateWithStripe ioOk lm sid pi em now).2.data =
      stampChecksum { licensed := true, license_type := some "stripe_payment",
                      stripe_session_id := some sid, stripe_payment_intent := pi,
                      license_key := none, activated_at := some now,
                      email := em, checksum := none } ∧
    (activateWithStripe ioOk lm sid pi em now).2.file =
      (if ioOk then .record ((activateWithStripe ioOk lm sid pi em now).2.data)
       else lm.file) ∧
    (activateWithPromo ioOk lm sid "PROMO" em now).1 = true := by
  refine ⟨rfl, rfl, ?_, rfl⟩
  cases ioOk
  · rfl
  · rfl

/--
C8: `revoke_license` is idempotent: a second revocation leaves the state
exactly as the first did, and each revocation resets the in-memory record to
the default unlicensed record (checksum-stamped by `_save_data`, which
changes no other field), with no error raised on either call (the model is a
total function; the only fallible step, the write, is caught inside
`_save_data`).
-/
theorem revoke_idempotent (ioOk : Bool) (lm : LM) :
    revokeLicense ioOk (revokeLicense ioOk lm) = revokeLicense ioOk lm ∧
    (revokeLicense ioOk lm).data = stampChecksum defaultData ∧
    isLicensed (revokeLicense ioOk lm) = false := by
  cases ioOk
  · exact ⟨rfl, rfl, rfl⟩
  · exact ⟨rfl, rfl, rfl⟩

/--
C9: `get_activation_date` returns `None` when `activated_at` is unset
(absent/`null` or the empty string, both falsy) and `None` when the stored
string is not parsable (`datetime.fromisoformat` raises `ValueError`, which
the method catches); it is modelled as a total function — no exception
reaches the caller.
-/
theorem activation_date_none_on_bad (lm : LM) :
    (lm.data.activated_at = none → getActivationDate lm = none) ∧
    (lm.data.activated_at = some "" → getActivationDate lm = none) ∧
    (∀ s, lm.data.activated_at = some s → fromIsoformat s = none →
        getActivationDate lm = none) := by
  refine ⟨fun h => ?_, fun h => ?_, fun s hs hp => ?_⟩ <;>
    simp [getActivationDate, *]

/-- A manager whose record carries an unparsable activation timestamp. -/
def lmBadDate : LM :=
  { lmFresh with data := { defaultData with activated_at := some "not-a-date" } }

/-- Witness for C9: unset and unparsable timestamps both give `None`. -/
theorem activation_date_none_on_bad_witness :
    getActivationDate lmFresh = none ∧ getActivationDate lmBadDate = none :=
  ⟨(activation_date_none_on_bad lmFresh).1 rfl,
   (activation_date_none_on_bad lmBadDate).2.2 "not-a-date" rfl (by decide)⟩

/-- `_load_license_keys` touches only the key cache: the entitlement record
and the license file are untouched. -/
theorem loadLicenseKeys_frame (lm : LM) :
    ((loadLicenseKeys lm).2).data = lm.data ∧ ((loadLicenseKeys lm).2).file = lm.file := by
  rcases lm with ⟨d, f, kf, kc⟩
  cases kc with
  | none =>
      unfold loadLicenseKeys
      rcases h : computeKeys kf with ⟨e, ks⟩
      cases e <;> simp [h]
  | some ks => exact ⟨rfl, rfl⟩

/--
C6: when the normalized key is not in the loaded key set,
`activate_with_key` returns `False` — not an exception — and the entitlement
record is left unchanged both in memory and on disk (only the key cache, not
entitlement state, may have been populated).
-/
theorem invalid_key_leaves_state (ioOk : Bool) (lm : LM) (k now : String)
    (ks : List String) (lm' : LM)
    (hload : loadLicenseKeys lm = (Except.ok ks, lm'))
    (hmem : ks.contains (normalizeKey k) = false) :
    activateWithKey ioOk lm k now = (Except.ok false, lm') ∧
    lm'.data = lm.data ∧ lm'.file = lm.file := by
  have hframe := loadLicenseKeys_frame lm
  rw [hload] at hframe
  refine ⟨?_, hframe.1, hframe.2⟩
  simp only [activateWithKey, validateLicenseKey, hload]
  rw [hmem]

/-- A manager whose key file holds one valid key in the modern format. -/
def lmKeysOne : LM :=
  { data := defaultData, file := .absent,
    keysFile := .parsed (.obj [("keys", .arr [.str "BD-AAAA-BBBB-CCCC-DDDD"])]),
    keysCache := none }

/-- Witness for C6: a wrong key against a one-key file returns `False` and
changes nothing but the cache. -/
theorem invalid_key_leaves_state_witness :
    activateWithKey true lmKeysOne "BD-0000-0000-0000-0000" "2024-01-01T00:00:00" =
      (Except.ok false, { lmKeysOne with keysCache := some ["BD-AAAA-BBBB-CCCC-DDDD"] }) ∧
    ({ lmKeysOne with keysCache := some ["BD-AAAA-BBBB-CCCC-DDDD"] } : LM).data = lmKeysOne.data ∧
    ({ lmKeysOne with keysCache := some ["BD-AAAA-BBBB-CCCC-DDDD"] } : LM).file = lmKeysOne.file :=
  invalid_key_leaves_state true lmKeysOne "BD-0000-0000-0000-0000" "2024-01-01T00:00:00"
    ["BD-AAAA-BBBB-CCCC-DDDD"] _ rfl (by decide)

/--
C7: keys that normalize identically (equal after trimming and uppercasing)
make `activate_with_key` behave identically — same outcome and, on success,
the same resulting state, since both validation and the stored key go through
`key.strip().upper()`.
-/
theorem key_normalization_equiv (ioOk : Bool) (lm : LM) (k1 k2 now : String)
    (h : normalizeKey k1 = normalizeKey k2) :
    activateWithKey ioOk lm k1 now = activateWithKey ioOk lm k2 now := by
  unfold activateWithKey validateLicenseKey
  simp only [h]

/-- Witness for C7: a lowercase, padded spelling of the valid key activates
exactly like the canonical spelling. -/
theorem key_normalization_equiv_witness :
    activateWithKey true lmKeysOne " bd-aaaa-bbbb-cccc-dddd " "2024-01-01T00:00:00" =
      activateWithKey true lmKeysOne "BD-AAAA-BBBB-CCCC-DDDD" "2024-01-01T00:00:00" :=
  key_normalization_equiv true lmKeysOne " bd-aaaa-bbbb-cccc-dddd "
    "BD-AAAA-BBBB-CCCC-DDDD" "2024-01-01T00:00:00" (by decide)

/-- A manager whose key file parses to `("keys": [1])`: a recognized shape
with a non-string entry. -/
def lmBadKeysFile : LM :=
  { data := defaultData, file := .absent,
    keysFile := .parsed (.obj [("keys", .arr [.num 1])]), keysCache := none }

/--
C5 counterexample: a key-list file whose JSON decodes to a dict with a
`"keys"` list containing a non-string raises `AttributeError` at
`key.strip()` — the `except` clause catches only `JSONDecodeError` and
`IOError` — so the loader does not load zero keys without raising, and
`activate_with_key` propagates the exception instead of failing with
`False`.
-/
theorem fail_closed_counterexample :
    (loadLicenseKeys lmBadKeysFile).1 = Except.error PyError.attributeError ∧
    (activateWithKey true lmBadKeysFile "BD-AAAA-BBBB-CCCC-DDDD" "2024-01-01T00:00:00").1 =
      Except.error PyError.attributeError :=
  ⟨rfl, rfl⟩

/--
C5 amended: a key-list file that is missing, empty or otherwise undecodable
as JSON, or that decodes to neither a dict containing `"keys"` nor a list,
loads zero keys without raising, and with zero keys loaded every
`activate_with_key` call returns `False` and leaves the entitlement record
and license file unchanged.  (Files decoding to a `"keys"` dict or bare list
with non-string entries may raise instead.)
-/
theorem fail_closed_key_set_amended :
    computeKeys .absent = (none, []) ∧
    computeKeys .unparsable = (none, []) ∧
    (∀ j : Json, (∀ fs, j ≠ .obj fs) → (∀ xs, j ≠ .arr xs) →
        computeKeys (.parsed j) = (none, [])) ∧
    (∀ fs, objGet fs "keys" = none → computeKeys (.parsed (.obj fs)) = (none, [])) ∧
    (∀ (ioOk : Bool) (lm : LM) (k now : String),
        lm.keysCache = none → computeKeys lm.keysFile = (none, []) →
        (activateWithKey ioOk lm k now).1 = Except.ok false ∧
        ((activateWithKey ioOk lm k now).2).data = lm.data ∧
        ((activateWithKey ioOk lm k now).2).file = lm.file) := by
  refine ⟨rfl, rfl, ?_, ?_, ?_⟩
  · intro j h1 h2
    cases j with
    | obj fs => exact absurd rfl (h1 fs)
    | arr xs => exact absurd rfl (h2 xs)
    | null => rfl
    | bool b => rfl
    | num n => rfl
    | str s => rfl
  · intro fs h
    simp [computeKeys, h]
  · intro ioOk lm k now hcache hkeys
    have hload : loadLicenseKeys lm = (Except.ok [], { lm with keysCache := some [] }) := by
      simp [loadLicenseKeys, hcache, hkeys]
    have hnil : ([] : List String).contains (normalizeKey k) = false := rfl
    refine ⟨?_, ?_, ?_⟩ <;> simp [activateWithKey, validateLicenseKey, hload, hnil]

/-- Witness for the amended C5: an unrecognized scalar shape, a dict without
`"keys"`, and a missing file all load zero keys; against a missing file a
key attempt returns `False` with state unchanged. -/
theorem fail_closed_key_set_amended_witness :
    computeKeys (.parsed (.str "x")) = (none, []) ∧
    computeKeys (.parsed (.obj [("other", .null)])) = (none, []) ∧
    (activateWithKey true lmFresh "BD-1111" "2024-01-01T00:00:00").1 = Except.ok false ∧
    ((activateWithKey true lmFresh "BD-1111" "2024-01-01T00:00:00").2).data = lmFresh.data ∧
    ((activateWithKey true lmFresh "BD-1111" "2024-01-01T00:00:00").2).file = lmFresh.file :=
  ⟨fail_closed_key_set_amended.2.2.1 (.str "x") (fun _ h => Json.noConfusion h)
      (fun _ h => Json.noConfusion h),
   fail_closed_key_set_amended.2.2.2.1 [("other", .null)] rfl,
   (fail_closed_key_set_amended.2.2.2.2 true lmFresh "BD-1111" "2024-01-01T00:00:00" rfl rfl).1,
   (fail_closed_key_set_amended.2.2.2.2 true lmFresh "BD-1111" "2024-01-01T00:00:00" rfl rfl).2.1,
   (fail_closed_key_set_amended.2.2.2.2 true lmFresh "BD-1111" "2024-01-01T00:00:00" rfl rfl).2.2⟩
